import Mathlib

set_option autoImplicit false

/-!
Verification of the geometry and layout resolution engine of tikzplotly.

The definitions below are shallow embeddings of the Python source:
numbers that the source handles as Python ints/floats are modelled as
rationals, Python dicts as insertion-ordered association lists, and code
that can raise an exception as functions into Except/Option.
-/

namespace Tikzplotly

/-! ### Option store (Axis.options, src/tikzplotly/_axis.py)

An axis owns a Python dict from option name to value.  A dict is modelled
as an insertion-ordered association list with at most one binding per key:
assignment to an existing key updates the binding in place, assignment to
a fresh key appends. -/

/-- Dict lookup d.get(k, None): the value bound to the key, if any. -/
def lookupStore {α : Type} : List (String × α) → String → Option α
  | [], _ => none
  | (k', v) :: rest, k => if k' = k then some v else lookupStore rest k

/-- Dict assignment d[k] = v: replaces the binding in place when the key is
present, appends the binding when it is absent. -/
def setStore {α : Type} : List (String × α) → String → α → List (String × α)
  | [], k, v => [(k, v)]
  | (k', v') :: rest, k, v =>
      if k' = k then (k', v) :: rest else (k', v') :: setStore rest k v

/-- Axis.add_option (src/tikzplotly/_axis.py lines 91-103): warns when a
different value is overwritten, then assigns unconditionally.  The warning
does not change the store, so the state effect is plain assignment. -/
def add_option {α : Type} (st : List (String × α)) (option : String) (value : α) :
    List (String × α) :=
  setStore st option value

/-- Axis.update_option (src/tikzplotly/_axis.py lines 132-151).  When the key
is present the source calls update_fn(old, new) inside try/except; a raising
update_fn is modelled by update_fn returning none, in which case the source
warns and overwrites with the new value.  When the key is absent the value is
assigned directly. -/
def update_option {α : Type} (st : List (String × α)) (option : String) (value : α)
    (update_fn : α → α → Option α) : List (String × α) :=
  match lookupStore st option with
  | some old =>
    match update_fn old value with
    | some r => setStore st option r
    | none => setStore st option value
  | none => setStore st option value

/-- Option values reached by Axis.append_option (src/tikzplotly/_axis.py
lines 153-175): a scalar string or a list of strings.  (Other runtime value
types, e.g. None or dicts, would make the source's membership test raise a
TypeError and are outside this model.) -/
inductive OptVal where
  | str (s : String)
  | list (l : List String)
deriving DecidableEq

/-- Python str.split(sep) for a nonempty separator, on character lists, with
explicit fuel for structural recursion: at each position either the separator
is a prefix (the accumulated token is closed and the separator consumed) or
one character moves into the token. -/
def pySplitChars (sep : List Char) : ℕ → List Char → List Char → List (List Char)
  | 0, rest, acc => [acc.reverse ++ rest]
  | fuel + 1, s, acc =>
    match s with
    | [] => [acc.reverse]
    | c :: rest =>
      if sep.isPrefixOf (c :: rest) then
        acc.reverse :: pySplitChars sep fuel ((c :: rest).drop sep.length) []
      else
        pySplitChars sep fuel rest (c :: acc)

/-- Python str.split(sep): s.length + 1 units of fuel are enough because each
step of pySplitChars consumes at least one character of a nonempty s. -/
def pySplit (s sep : String) : List String :=
  (pySplitChars sep.data (s.length + 1) s.data []).map String.mk

/-- Python str.strip(): whitespace removed from both ends. -/
def pyStrip (s : String) : String :=
  String.mk (((s.data.dropWhile Char.isWhitespace).reverse.dropWhile Char.isWhitespace).reverse)

/-- Axis.append_option (src/tikzplotly/_axis.py lines 153-175).  A list value
gets the new value appended.  A scalar containing a comma is first coerced by
the source expression [v.strip() for v in ",".split(self.options[option])]:
note the receiver of split is the one-character string "," and the separator
is the current value, which is modelled verbatim by pySplit with the same
receiver and argument.  A comma-free scalar becomes the one-element list
holding it.  An absent key becomes the one-element list of the new value. -/
def append_option (st : List (String × OptVal)) (option : String) (value : String) :
    List (String × OptVal) :=
  match lookupStore st option with
  | some (OptVal.list l) => setStore st option (OptVal.list (l ++ [value]))
  | some (OptVal.str s) =>
      if s.data.contains ',' then
        setStore st option (OptVal.list (((pySplit "," s).map pyStrip) ++ [value]))
      else
        setStore st option (OptVal.list ([s] ++ [value]))
  | none => setStore st option (OptVal.list [value])

theorem lookupStore_setStore_self {α : Type} (st : List (String × α)) (k : String) (v : α) :
    lookupStore (setStore st k v) k = some v := by
  induction st with
  | nil => simp [setStore, lookupStore]
  | cons hd tl ih =>
    obtain ⟨k', v'⟩ := hd
    by_cases h : k' = k
    · simp [setStore, lookupStore, h]
    · simp [setStore, lookupStore, h, ih]

theorem setStore_setStore {α : Type} (st : List (String × α)) (k : String) (v w : α) :
    setStore (setStore st k v) k w = setStore st k w := by
  induction st with
  | nil => simp [setStore]
  | cons hd tl ih =>
    obtain ⟨k', v'⟩ := hd
    by_cases h : k' = k
    · simp [setStore, h]
    · simp [setStore, h, ih]

/-- C8: applying update_option twice with the same key, the same value and the
keep-existing merge function leaves the store exactly as applying it once
does, and with an absent key update_option (with any merge function) behaves
exactly as the plain assignment done by add_option. -/
theorem update_option_keep_idem {α : Type} (st : List (String × α)) (k : String) (v : α) :
    update_option (update_option st k v (fun a _ => some a)) k v (fun a _ => some a)
      = update_option st k v (fun a _ => some a)
    ∧ (∀ f : α → α → Option α,
        lookupStore st k = none → update_option st k v f = add_option st k v) := by
  constructor
  · cases h : lookupStore st k with
    | none =>
      simp only [update_option, h]
      rw [lookupStore_setStore_self]
      exact setStore_setStore st k v v
    | some old =>
      simp only [update_option, h]
      rw [lookupStore_setStore_self]
      exact setStore_setStore st k old old
  · intro f h
    simp [update_option, h, add_option]

theorem update_option_keep_idem_witness :
    update_option (update_option ([] : List (String × Nat)) "xmin" 3 (fun a _ => some a))
        "xmin" 3 (fun a _ => some a)
      = update_option ([] : List (String × Nat)) "xmin" 3 (fun a _ => some a)
    ∧ update_option ([] : List (String × Nat)) "xmin" 3 (fun a _ => some a)
        = add_option [] "xmin" 3 := by
  have h := update_option_keep_idem ([] : List (String × Nat)) "xmin" 3
  exact ⟨h.1, h.2 (fun a _ => some a) rfl⟩

/-- C7 (divergence of the source from its stated intent): on a store whose key
holds the comma-containing scalar "a,b", appending "c" produces the list
containing "," and "c".  The source's split call has receiver and argument
swapped, so the scalar is not split into its comma-delimited elements "a"
and "b" as the adjacent warning message promises. -/
theorem append_option_comma_scalar :
    append_option [("extra x ticks", OptVal.str "a,b")] "extra x ticks" "c"
      = [("extra x ticks", OptVal.list [",", "c"])] := by
  decide

/-! ### Coordinate resolver (src/tikzplotly/_annotations.py) -/

/-- A coordinate emitted by get_coordinates: either the input value passed
through unchanged (a plain number in the output markup), or the symbolic
axis-bound formula the source writes as the string
pgfkeysvalueof of the axis minimum, plus val times pgfkeysvalueof of the
axis maximum, minus val times pgfkeysvalueof of the axis minimum
(coord_text, src/tikzplotly/_annotations.py lines 40-41). -/
inductive CoordOut where
  | abs (v : ℚ)
  | sym (axis : String) (v : ℚ)
deriving DecidableEq

/-- The value a CoordOut denotes once the owning axis's bounds amin and amax
are known at render time: the sym form denotes exactly the formula the string
spells out, amin + v * amax - v * amin. -/
def evalCoordOut (amin amax : ℚ) : CoordOut → ℚ
  | CoordOut.abs v => v
  | CoordOut.sym _ v => amin + v * amax - v * amin

/-- get_coordinates (src/tikzplotly/_annotations.py lines 16-44).  The Python
chained comparison x_ref == y_ref == "paper" guards the fully-relative branch;
otherwise each component whose reference is "paper" is rewritten by coord_text
over its own axis name ("x" for the first component, "y" for the second,
from the zip over the name list) and any other component passes through. -/
def get_coordinates (x y : ℚ) (x_ref y_ref : String) : CoordOut × CoordOut × Bool :=
  if x_ref = "paper" ∧ y_ref = "paper" then
    (CoordOut.abs x, CoordOut.abs y, true)
  else
    ((if x_ref = "paper" then CoordOut.sym "x" x else CoordOut.abs x),
     (if y_ref = "paper" then CoordOut.sym "y" y else CoordOut.abs y),
     false)

/-- C2: when both references are the paper frame, get_coordinates returns the
pair unchanged together with the relative flag set; and the relative flag is
set only when both references are the paper frame. -/
theorem get_coordinates_paper_roundtrip (x y : ℚ) (x_ref y_ref : String) :
    ((x_ref = "paper" ∧ y_ref = "paper") →
      get_coordinates x y x_ref y_ref = (CoordOut.abs x, CoordOut.abs y, true))
    ∧ ((get_coordinates x y x_ref y_ref).2.2 = true →
      x_ref = "paper" ∧ y_ref = "paper") := by
  constructor
  · intro h
    simp [get_coordinates, h.1, h.2]
  · intro h
    by_contra hc
    rw [get_coordinates, if_neg hc] at h
    simp at h

theorem get_coordinates_paper_roundtrip_witness :
    get_coordinates (1/2) (1/3) "paper" "paper"
      = (CoordOut.abs (1/2), CoordOut.abs (1/3), true) :=
  (get_coordinates_paper_roundtrip (1/2) (1/3) "paper" "paper").1 ⟨rfl, rfl⟩

/-- C3: when the references are not both the paper frame, get_coordinates
reports the relative flag false, rewrites each paper-relative component to
the symbolic formula over its own axis's bounds - a formula denoting
amin + v * (amax - amin), so that value 1/2 against bounds 0 and 10
denotes 5 - and passes each non-relative component through unchanged. -/
theorem get_coordinates_mixed (x y : ℚ) (x_ref y_ref : String)
    (h : ¬ (x_ref = "paper" ∧ y_ref = "paper")) :
    (get_coordinates x y x_ref y_ref).2.2 = false
    ∧ (get_coordinates x y x_ref y_ref).1
        = (if x_ref = "paper" then CoordOut.sym "x" x else CoordOut.abs x)
    ∧ (get_coordinates x y x_ref y_ref).2.1
        = (if y_ref = "paper" then CoordOut.sym "y" y else CoordOut.abs y)
    ∧ (∀ amin amax : ℚ, ∀ a : String,
        evalCoordOut amin amax (CoordOut.sym a x) = amin + x * (amax - amin)) := by
  refine ⟨?_, ?_, ?_, ?_⟩
  · rw [get_coordinates, if_neg h]
  · rw [get_coordinates, if_neg h]
  · rw [get_coordinates, if_neg h]
  · intro amin amax a
    simp [evalCoordOut]
    ring

theorem get_coordinates_mixed_witness :
    (get_coordinates (1/2) 3 "paper" "y2").2.2 = false
    ∧ evalCoordOut 0 10 ((get_coordinates (1/2) 3 "paper" "y2").1) = 5 := by
  have h := get_coordinates_mixed (1/2) 3 "paper" "y2" (by simp)
  refine ⟨h.1, ?_⟩
  rw [h.2.1]
  norm_num [evalCoordOut]

/-! ### Panel grid transform (src/tikzplotly/_annotations.py lines 46-87) -/

/-- The fields of the groupplots_info dict that get_groupplots_coordinates
reads: overall canvas height/width, per-panel width, three margins, the
number of panels created and the number of grid columns. -/
structure GroupplotsInfo where
  overall_height : ℚ
  overall_width : ℚ
  width : ℚ
  margin_l : ℚ
  margin_r : ℚ
  margin_b : ℚ
  num_subplots : ℕ
  cols : ℕ

/-- get_groupplots_coordinates (src/tikzplotly/_annotations.py lines 46-87).
The source emits arithmetic expressions as strings for the output markup;
this models the rational values those expressions denote.  Division is exact
rational division (the source would raise ZeroDivisionError for width = 0 or
overall_width = 0, so the theorem below assumes both nonzero; Python's
(num_subplots - 1) % cols on nonnegative ints is ℕ subtraction/mod for
num_subplots ≥ 1, cols ≥ 1). -/
def get_groupplots_coordinates (x y : ℚ) (g : GroupplotsInfo) : ℚ × ℚ :=
  let x_coord_raw := x * g.overall_width
  let y_coord_raw := y * g.overall_height
  let last_col : ℕ := (g.num_subplots - 1) % g.cols
  let x_offset :=
    ((last_col : ℚ) * (g.width + g.margin_l + g.margin_r) + g.margin_l) * 100 / g.width
  let y_offset := g.margin_b
  (x_coord_raw - x_offset,
   y_coord_raw * (g.overall_height / g.overall_width)
     - y_offset * (g.overall_height / g.overall_width))

/-- C5: the x output is x times the canvas width minus the offset
column * (panel width + left margin + right margin) + left margin for the
last-created panel's column (num_subplots - 1) % cols, the whole offset
scaled once by the conversion factor 100 / panel width; the y output is
y times the canvas height rescaled by canvas height / canvas width, minus
a vertical offset that is only the bottom margin scaled by that same
ratio. -/
theorem get_groupplots_coordinates_spec (x y : ℚ) (g : GroupplotsInfo)
    (hw : g.width ≠ 0) (how : g.overall_width ≠ 0) :
    get_groupplots_coordinates x y g
      = (x * g.overall_width
           - ((((g.num_subplots - 1) % g.cols : ℕ) : ℚ)
                * (g.width + g.margin_l + g.margin_r) + g.margin_l) * (100 / g.width),
         y * g.overall_height * (g.overall_height / g.overall_width)
           - g.margin_b * (g.overall_height / g.overall_width)) := by
  unfold get_groupplots_coordinates
  simp only [Prod.mk.injEq]
  constructor
  · ring
  · ring

theorem get_groupplots_coordinates_spec_witness :
    get_groupplots_coordinates (1/2) (1/4)
        (GroupplotsInfo.mk 300 400 100 10 20 30 4 2)
      = ((1/2) * 400 - (((((4 - 1) % 2 : ℕ) : ℚ)) * (100 + 10 + 20) + 10) * (100 / 100),
         (1/4) * 300 * (300 / 400) - 30 * (300 / 400)) :=
  get_groupplots_coordinates_spec (1/2) (1/4)
    (GroupplotsInfo.mk 300 400 100 10 20 30 4 2) (by norm_num) (by norm_num)

/-! ### Annotation rendering entry, the source function str_from_ann models -/

/-- The fields of a Plotly annotation object that the modelled code reads. -/
structure AnnPoint where
  x : ℚ
  y : ℚ
  xref : String
  yref : String
  text : String
deriving DecidableEq

/-- str_from_annotation (src/tikzplotly/_annotations.py lines 91-135) on the
single-axis path (groupplots_info = None), abstracted to its state effect and
the resolved coordinates: when the annotation list is nonempty the option
clip = "false" is added to every axis of the supplied list, before the loop
over annotations runs; the loop then resolves each annotation's coordinates
with get_coordinates and only builds output text (anchors, colors and the
emitted node string do not touch the axes and are not modelled).  The
source's rounding of x and y to 6 decimal places only changes the numbers
fed to get_coordinates and is omitted. -/
def str_from_ann (annotation_list : List AnnPoint)
    (axes : List (List (String × OptVal))) :
    List (List (String × OptVal)) × List (CoordOut × CoordOut × Bool) :=
  let axes' :=
    if annotation_list.length > 0 then
      axes.map (fun axis => add_option axis "clip" (OptVal.str "false"))
    else axes
  (axes', annotation_list.map (fun a => get_coordinates a.x a.y a.xref a.yref))

/-- C10: whenever the annotation list is nonempty, every axis of the supplied
list ends up with option clip = "false", and the resulting axis list does not
depend on which nonempty annotations were supplied (their frames and contents
are irrelevant). -/
theorem str_from_ann_clip (annotation_list : List AnnPoint)
    (axes : List (List (String × OptVal))) (h : annotation_list ≠ []) :
    (∀ axis ∈ (str_from_ann annotation_list axes).1,
        lookupStore axis "clip" = some (OptVal.str "false"))
    ∧ (∀ annotation_list2 : List AnnPoint, annotation_list2 ≠ [] →
        (str_from_ann annotation_list2 axes).1
          = (str_from_ann annotation_list axes).1) := by
  have hlen : annotation_list.length > 0 := List.length_pos.mpr h
  constructor
  · intro axis hmem
    simp only [str_from_ann, if_pos hlen] at hmem
    obtain ⟨axis0, _, rfl⟩ := List.mem_map.mp hmem
    exact lookupStore_setStore_self axis0 "clip" (OptVal.str "false")
  · intro l2 h2
    have hlen2 : l2.length > 0 := List.length_pos.mpr h2
    simp [str_from_ann, if_pos hlen, if_pos hlen2]

theorem str_from_ann_clip_witness :
    lookupStore ((str_from_ann [AnnPoint.mk 0 1 "paper" "y2" "note"]
        [[("xmin", OptVal.str "0")], []]).1.headD []) "clip"
      = some (OptVal.str "false") :=
  (str_from_ann_clip [AnnPoint.mk 0 1 "paper" "y2" "note"]
      [[("xmin", OptVal.str "0")], []] (by simp)).1
    ((str_from_ann [AnnPoint.mk 0 1 "paper" "y2" "note"]
        [[("xmin", OptVal.str "0")], []]).1.headD [])
    (by decide)

/-! ### Heatmap rasterizer (src/tikzplotly/_heatmap.py, draw_heatmap) -/

/-- One line of the table draw_heatmap emits (lines 127-162): the header line
"x y z" followed by the row separator, a data line carrying an x coordinate,
a y coordinate and a z value followed by the row separator, or the extra
separator-only line written after each grid row. -/
inductive HLine where
  | header
  | entry (x y z : ℚ)
  | sep
deriving DecidableEq

/-- The epsilon written as the literal 0.000001 in line 161. -/
def heatmap_eps : ℚ := 1 / 1000000

/-- The duplicated vertex grid (lines 149-155): the four strided assignments
grid with even rows and even columns, odd rows and even columns, even rows
and odd columns, odd rows and odd columns all set from figure_data together
give grid at row j, column i the value figure_data at row j / 2,
column i / 2, for every j below 2R and i below 2C. -/
def gridVal (figure_data : List (List ℚ)) (j i : ℕ) : ℚ :=
  (figure_data.getD (j / 2) []).getD (i / 2) 0

/-- The coordinate written for index i (line 161): (i + 1) // 2 in Python
integer division, minus (i % 2) * 0.000001. -/
def meshCoord (i : ℕ) : ℚ :=
  (((i + 1) / 2 : ℕ) : ℚ) - ((i % 2 : ℕ) : ℚ) * heatmap_eps

/-- The data lines of the emitted table (lines 158-162): row-major over the
2R by 2C grid, one entry line per grid cell, and one extra separator line
after each grid row.  R and C are figure_data.shape as numpy computes it for
a rectangular nested list: the outer length and the first row's length. -/
def heatmap_table (figure_data : List (List ℚ)) : List HLine :=
  let R := figure_data.length
  let C := (figure_data.headD []).length
  ((List.range (2 * R)).map (fun j =>
    ((List.range (2 * C)).map (fun i =>
      HLine.entry (meshCoord i) (meshCoord j) (gridVal figure_data j i)))
    ++ [HLine.sep])).join

theorem join_length_const {α : Type} (L : List (List α)) (B : ℕ)
    (h : ∀ l ∈ L, l.length = B) : L.join.length = L.length * B := by
  induction L with
  | nil => simp
  | cons hd tl ih =>
    simp only [List.join_cons, List.length_append, List.length_cons]
    rw [h hd (by simp), ih (fun l hl => h l (by simp [hl]))]
    ring

theorem join_getElem_blocks {α : Type} (L : List (List α)) (B : ℕ)
    (h : ∀ l ∈ L, l.length = B) (j k : ℕ) (hj : j < L.length) (hk : k < B) :
    L.join[j * B + k]? = (L.getD j [])[k]? := by
  induction L generalizing j with
  | nil => simp at hj
  | cons hd tl ih =>
    cases j with
    | zero =>
      have hhd : hd.length = B := h hd (by simp)
      simp only [List.join_cons, Nat.zero_mul, Nat.zero_add, List.getD_cons_zero]
      rw [List.getElem?_append_left (by rw [hhd]; exact hk)]
    | succ j' =>
      have hhd : hd.length = B := h hd (by simp)
      have hj' : j' < tl.length := by simpa using hj
      have harith : (j' + 1) * B + k = hd.length + (j' * B + k) := by
        rw [hhd]; ring
      simp only [List.join_cons, List.getD_cons_succ]
      rw [harith, List.getElem?_append_right (Nat.le_add_right _ _),
        Nat.add_sub_cancel_left]
      exact ih (fun l hl => h l (by simp [hl])) j' hj'

/-- C1: on an R by C source matrix with R, C at least 1, the emitted data
lines consist of exactly 2R blocks of 2C entry lines each followed by one
separator line; the entry for mesh cell (j, i) carries x coordinate
(i + 1) / 2 - (i % 2) * (1 / 1000000) and y coordinate
(j + 1) / 2 - (j % 2) * (1 / 1000000) (integer divisions, epsilon exactly
1 / 1000000) and z value matrix at (j / 2, i / 2); in particular for
R = C = 1 the four entry values all equal the single source value. -/
theorem heatmap_table_spec (figure_data : List (List ℚ)) (R C : ℕ)
    (hR : figure_data.length = R) (hRpos : 0 < R)
    (hC : ∀ row ∈ figure_data, row.length = C) (hCpos : 0 < C) :
    (heatmap_table figure_data).length = 2 * R * (2 * C + 1)
    ∧ (∀ j, j < 2 * R → ∀ i, i < 2 * C →
        (heatmap_table figure_data)[j * (2 * C + 1) + i]?
          = some (HLine.entry
              ((((i + 1) / 2 : ℕ) : ℚ) - ((i % 2 : ℕ) : ℚ) * (1 / 1000000))
              ((((j + 1) / 2 : ℕ) : ℚ) - ((j % 2 : ℕ) : ℚ) * (1 / 1000000))
              ((figure_data.getD (j / 2) []).getD (i / 2) 0)))
    ∧ (∀ j, j < 2 * R →
        (heatmap_table figure_data)[j * (2 * C + 1) + 2 * C]? = some HLine.sep)
    ∧ (R = 1 → C = 1 → ∀ j, j < 2 → ∀ i, i < 2 →
        (heatmap_table figure_data)[j * 3 + i]?
          = some (HLine.entry (meshCoord i) (meshCoord j)
              ((figure_data.getD 0 []).getD 0 0))) := by
  have hC0 : (figure_data.headD []).length = C := by
    cases figure_data with
    | nil => simp at hR; omega
    | cons hd tl => exact hC hd (by simp)
  set L := (List.range (2 * R)).map (fun j =>
    ((List.range (2 * C)).map (fun i =>
      HLine.entry (meshCoord i) (meshCoord j) (gridVal figure_data j i)))
    ++ [HLine.sep]) with hL
  have htab : heatmap_table figure_data = L.join := by
    rw [heatmap_table, hR, hC0]
  have hblock : ∀ l ∈ L, l.length = 2 * C + 1 := by
    intro l hl
    rw [hL] at hl
    obtain ⟨j, _, rfl⟩ := List.mem_map.mp hl
    simp
  have hLlen : L.length = 2 * R := by rw [hL]; simp
  have hgetL : ∀ j, j < 2 * R → L.getD j []
      = ((List.range (2 * C)).map (fun i =>
          HLine.entry (meshCoord i) (meshCoord j) (gridVal figure_data j i)))
        ++ [HLine.sep] := by
    intro j hj
    rw [hL, List.getD_eq_getElem?_getD, List.getElem?_map, List.getElem?_range hj]
    rfl
  have hentry : ∀ j, j < 2 * R → ∀ i, i < 2 * C →
      (heatmap_table figure_data)[j * (2 * C + 1) + i]?
        = some (HLine.entry (meshCoord i) (meshCoord j) (gridVal figure_data j i)) := by
    intro j hj i hi
    rw [htab, join_getElem_blocks L (2 * C + 1) hblock j i (hLlen ▸ hj) (by omega),
      hgetL j hj, List.getElem?_append_left (by simpa using hi), List.getElem?_map,
      List.getElem?_range hi]
    rfl
  refine ⟨?_, ?_, ?_, ?_⟩
  · rw [htab, join_length_const L (2 * C + 1) hblock, hLlen]
  · intro j hj i hi
    rw [hentry j hj i hi]
    rfl
  · intro j hj
    rw [htab, join_getElem_blocks L (2 * C + 1) hblock j (2 * C) (hLlen ▸ hj)
      (by omega), hgetL j hj, List.getElem?_append_right (by simp)]
    simp
  · intro h1 hc1 j hj i hi
    subst h1; subst hc1
    have := hentry j (by omega) i (by omega)
    rw [show j * (2 * 1 + 1) + i = j * 3 + i by ring] at this
    rw [this]
    have hj2 : j / 2 = 0 := by omega
    have hi2 : i / 2 = 0 := by omega
    rw [gridVal, hj2, hi2]

theorem heatmap_table_spec_witness :
    (heatmap_table [[(3 : ℚ)]]).length = 2 * 1 * (2 * 1 + 1)
    ∧ (heatmap_table [[(3 : ℚ)]])[1 * (2 * 1 + 1) + 0]?
        = some (HLine.entry
            ((((0 + 1) / 2 : ℕ) : ℚ) - ((0 % 2 : ℕ) : ℚ) * (1 / 1000000))
            ((((1 + 1) / 2 : ℕ) : ℚ) - ((1 % 2 : ℕ) : ℚ) * (1 / 1000000))
            (([[(3 : ℚ)]].getD (1 / 2) []).getD (0 / 2) 0)) := by
  have h := heatmap_table_spec [[(3 : ℚ)]] 1 1 rfl (by norm_num)
    (by intro row hr; simp at hr; simp [hr]) (by norm_num)
  exact ⟨h.1, h.2.1 1 (by norm_num) 0 (by norm_num)⟩

/-- numpy's shape for data.z as a nested list (line 138): the empty list
gives a one-dimensional array, so reading shape[1] raises IndexError
(line 149); a nonempty rectangular list gives shape (R, C); a ragged list
makes np.array itself raise. -/
def npShape2 : List (List ℚ) → Except String (ℕ × ℕ)
  | [] => Except.error "IndexError: tuple index out of range"
  | r :: rs =>
      if rs.all (fun row => row.length == r.length) then
        Except.ok ((r :: rs).length, r.length)
      else
        Except.error "ValueError: inhomogeneous shape"

/-- draw_heatmap (src/tikzplotly/_heatmap.py lines 65-245) abstracted to the
table it emits and the first exception on the degenerate-shape paths, on the
default-options call used by _save.py.  data.z = None returns early with the
header-only (empty) table (lines 130-134).  A present z goes through
np.array/shape (see npShape2); with zero columns the emission loops write
only separator lines and the code then raises ZeroDivisionError at the tick
rotation guess width / figure_data.shape[1] (line 186) before returning
(np.nanmax on the empty array at line 194 would raise as well).  The many
axis option updates along the way never raise for a well-shaped z and do not
contribute to the returned table. -/
def draw_heatmap_table (z : Option (List (List ℚ))) : Except String (List HLine) :=
  match z with
  | none => Except.ok [HLine.header]
  | some figure_data =>
    match npShape2 figure_data with
    | Except.error e => Except.error e
    | Except.ok (_, C) =>
      if C = 0 then Except.error "ZeroDivisionError: division by zero"
      else Except.ok (HLine.header :: heatmap_table figure_data)

/-- C9 (counterexample): a present source matrix with zero rows raises
IndexError while computing the mesh shape, and one with one row and zero
columns raises ZeroDivisionError, contradicting the claim that zero-row or
zero-column matrices are skipped without error. -/
theorem draw_heatmap_degenerate_raises :
    draw_heatmap_table (some []) = Except.error "IndexError: tuple index out of range"
    ∧ draw_heatmap_table (some [[]])
        = Except.error "ZeroDivisionError: division by zero" :=
  ⟨rfl, rfl⟩

/-- C9 (amended): only when the source matrix is absent (data.z is None) does
draw_heatmap skip rasterization and emit the empty surface block without
error. -/
theorem draw_heatmap_none_empty_block :
    draw_heatmap_table none = Except.ok [HLine.header] := rfl

/-! ### Subgrid / title search (src/tikzplotly/_utils.py find_subgrids and
src/tikzplotly/_save.py check_grid) -/

/-- Python sorted(list(set(...))): the distinct values in ascending order. -/
def sortedDistinct (l : List ℚ) : List ℚ :=
  (l.eraseDups).insertionSort (· ≤ ·)

/-- Python zip(*grid): the columns of a list of rows, truncated to the
shortest row (the source only reaches this after checking all rows have the
expected length, so truncation never loses data there). -/
def pyZip {α : Type} [Inhabited α] (ls : List (List α)) : List (List α) :=
  match ls with
  | [] => []
  | l :: rest =>
    let n := (l :: rest).foldl (fun m r => min m r.length) l.length
    (List.range n).map (fun c => (l :: rest).map (fun row => row.getD c default))

/-- check_grid (src/tikzplotly/_save.py lines 370-405): hard failure (grid
discarded) on wrong row count, wrong column count, or non-uniform per-row y /
per-column x coordinates; otherwise valid with soft warnings collected in
source order: a cell with more than one point, a cell with no point at an
index below n_figures, and any cell index at or beyond n_figures (the source
sets the extra-titles flag from the index alone, populated or not). -/
def check_grid (grid : List (List (List AnnPoint)))
    (n_x_domains n_y_domains n_figures : ℕ) : Bool × List String :=
  if grid.length ≠ n_y_domains then
    (false, ["Incorrect number of rows in grid; not parsing as titles."])
  else if ¬ grid.all (fun row => row.length == n_x_domains) then
    (false, ["Incorrect number of columns in grid; not parsing as titles."])
  else if ¬ grid.all (fun row =>
      ((row.join.map (fun c => c.y)).eraseDups).length == 1) then
    (false, ["Rows of grid do not have common y coordinates; not parsing as titles."])
  else if ¬ (pyZip grid).all (fun col =>
      ((col.join.map (fun c => c.x)).eraseDups).length == 1) then
    (false, ["Columns of grid do not have common x coordinates; not parsing as titles."])
  else
    let idxed := grid.enum
    let warn_multiple := idxed.any (fun rrow =>
      rrow.2.any (fun sel => decide (1 < sel.length)))
    let warn_missing := idxed.any (fun rrow => (rrow.2.enum).any (fun csel =>
      decide (rrow.1 * n_x_domains + csel.1 < n_figures) && decide (csel.2.length = 0)))
    let warn_extra := idxed.any (fun rrow => (rrow.2.enum).any (fun csel =>
      decide (n_figures ≤ rrow.1 * n_x_domains + csel.1)))
    (true,
      (if warn_multiple then ["Multiple titles found for a single subplot."] else [])
      ++ (if warn_missing then ["No titles found for a subplot."] else [])
      ++ (if warn_extra then ["Titles found for nonexistent subplots."] else []))

/-- find_subgrids (src/tikzplotly/_utils.py lines 162-254), modelled on the
paths the source can execute to completion: fewer distinct x (resp. y)
coordinates than requested columns (resp. rows) yields nothing (lines
180-183), and the exact-fit case - distinct coordinate counts equal to the
requested grid shape - builds the single candidate grid directly, validates
it once with the supplied checker at min(n_x_domains * n_y_domains,
n_entries) expected entries, and yields it only if valid (lines 185-204).
The general backtracking branch (subgrid_core, lines 206-254) dereferences
attributes coord.a and coord.b that annotation points do not have, and in
its row branch a variable y that is unbound there, so every execution that
reaches a nonempty reduction loop raises AttributeError or NameError; that
branch is therefore modelled as none (no defined result list).  The rows of
the candidate grid follow the distinct y coordinates sorted descending
(source comment: tikz groupplots index from the upper left), the columns the
distinct x coordinates sorted ascending. -/
def find_subgrids (coords : List AnnPoint) (n_x_domains n_y_domains n_entries : ℕ)
    (check : List (List (List AnnPoint)) → ℕ → ℕ → ℕ → Bool × List String) :
    Option (List (List (List (List AnnPoint)) × List ℚ × List ℚ × List String)) :=
  let x_coords := sortedDistinct (coords.map (fun c => c.x))
  let y_coords := (sortedDistinct (coords.map (fun c => c.y))).reverse
  if x_coords.length < n_x_domains ∨ y_coords.length < n_y_domains then some []
  else if x_coords.length = n_x_domains ∧ y_coords.length = n_y_domains then
    let grid := y_coords.map (fun y => x_coords.map (fun x =>
      coords.filter (fun c => c.x == x && c.y == y)))
    let res := check grid n_x_domains n_y_domains
      (min (n_x_domains * n_y_domains) n_entries)
    if res.1 then some [(grid, x_coords, y_coords, res.2)] else some []
  else none

/-- The four labeled corner points of C4, as paper-frame annotations. -/
def cornerPoints : List AnnPoint :=
  [AnnPoint.mk 0 0 "paper" "paper" "p00", AnnPoint.mk 0 1 "paper" "paper" "p01",
   AnnPoint.mk 1 0 "paper" "paper" "p10", AnnPoint.mk 1 1 "paper" "paper" "p11"]

/-- C4: on the four corner points with a requested 2 by 2 grid and expected
count 4, find_subgrids produces exactly one candidate, valid with zero
warnings; removing any one point still produces exactly one candidate, valid
with exactly the one missing-title warning and no fatal failure. -/
theorem find_subgrids_corner_grid :
    ((find_subgrids cornerPoints 2 2 4 check_grid).getD []).map (fun r => r.2.2.2)
        = [[]]
    ∧ (find_subgrids cornerPoints 2 2 4 check_grid).isSome = true
    ∧ ∀ p ∈ cornerPoints,
        ((find_subgrids (cornerPoints.erase p) 2 2 4 check_grid).getD []).map
            (fun r => r.2.2.2) = [["No titles found for a subplot."]]
        ∧ (find_subgrids (cornerPoints.erase p) 2 2 4 check_grid).isSome = true := by
  decide

theorem find_subgrids_corner_grid_witness :
    ((find_subgrids (cornerPoints.erase (AnnPoint.mk 0 0 "paper" "paper" "p00"))
          2 2 4 check_grid).getD []).map (fun r => r.2.2.2)
        = [["No titles found for a subplot."]]
    ∧ (find_subgrids (cornerPoints.erase (AnnPoint.mk 0 0 "paper" "paper" "p00"))
          2 2 4 check_grid).isSome = true :=
  find_subgrids_corner_grid.2.2 (AnnPoint.mk 0 0 "paper" "paper" "p00") (by decide)

/-! ### Selection among several first-row title matches
(src/tikzplotly/_save.py lines 445-457) -/

/-- A result yielded by find_subgrids, as consumed by get_tikz_code: the
4-tuple (grid, x_coords, y_coords, warnings). -/
abbrev Candidate :=
  List (List (List AnnPoint)) × List ℚ × List ℚ × List String

/-- A Python value produced while iterating over such a 4-tuple: iterating
the tuple itself yields its four components, and iterating a component
yields grid rows (lists of cells), coordinate floats, or warning strings -
never an annotation point. -/
inductive PyElem where
  | gridRow (r : List (List AnnPoint))
  | coordVal (q : ℚ)
  | warnStr (s : String)

/-- The elements the source's ranking key generator
(coord.y for row in grid for coord in row, line 447, where grid is bound to
the whole 4-tuple) produces before the attribute access: row ranges over the
tuple's four components and coord over each component's elements. -/
def tupleElems (cand : Candidate) : List PyElem :=
  cand.1.map PyElem.gridRow ++ cand.2.1.map PyElem.coordVal
    ++ cand.2.2.1.map PyElem.coordVal ++ cand.2.2.2.map PyElem.warnStr

/-- Python attribute access .y on such an element: grid rows are lists,
coordinates are floats and warnings are strings, so every access raises
AttributeError. -/
def pyAttrY : PyElem → Except String ℚ
  | PyElem.gridRow _ => Except.error "AttributeError: list object has no attribute y"
  | PyElem.coordVal _ => Except.error "AttributeError: float object has no attribute y"
  | PyElem.warnStr _ => Except.error "AttributeError: str object has no attribute y"

/-- The ranking key of line 447: max of the generator over the candidate
4-tuple (empty generators make Python's max raise ValueError). -/
def pyMaxKey (cand : Candidate) : Except String ℚ := do
  let ys ← (tupleElems cand).mapM pyAttrY
  match ys.max? with
  | some m => pure m
  | none => Except.error "ValueError: max of empty sequence"

/-- max(potential_top_titles, key=...) of src/tikzplotly/_save.py line 447:
Python evaluates the key on every element, keeps the first maximal one, and
propagates any exception the key raises. -/
def select_top_title_row (cands : List Candidate) : Except String Candidate :=
  match cands with
  | [] => Except.error "ValueError: max of empty sequence"
  | c0 :: rest => do
    let k0 ← pyMaxKey c0
    let res ← rest.foldlM (fun best c => do
        let k ← pyMaxKey c
        pure (if best.2 < k then (c, k) else best)) (c0, k0)
    pure res.1

/-- A 1 by 2 first-row title match at y = 9/10. -/
def topTitleCandA : Candidate :=
  ([[[AnnPoint.mk 0 (9/10) "paper" "paper" "t1"],
     [AnnPoint.mk 1 (9/10) "paper" "paper" "t2"]]], [0, 1], [9/10], [])

/-- A 1 by 2 first-row title match at y = 1/2. -/
def topTitleCandB : Candidate :=
  ([[[AnnPoint.mk 0 (1/2) "paper" "paper" "u1"],
     [AnnPoint.mk 1 (1/2) "paper" "paper" "u2"]]], [0, 1], [1/2], [])

/-- C6 (divergence of the source from its stated intent): given two valid
first-row matches, the selection of src/tikzplotly/_save.py line 447 raises
AttributeError at the very first candidate - its key lambda iterates the
(grid, x_coords, y_coords, warnings) tuple instead of the grid's points -
instead of returning the match with the greatest y coordinate as the
adjacent warning message announces. -/
theorem select_top_title_row_raises :
    select_top_title_row [topTitleCandA, topTitleCandB]
      = Except.error "AttributeError: list object has no attribute y" := rfl

end Tikzplotly
